import Mathlib

/-!
Verification of the Hampstead Renovations lead-scoring and quote-pricing core.

The definitions below are a shallow embedding of
`src/agent-1-lead-intake/api/main.py` (class `LeadScoringEngine`) and
`src/agent-3-office-ops/quote-builder/generator.py` (classes `PricingEngine`
and `QuoteService`).  Python `Decimal` values are embedded as exact rationals
(`ℚ`); `Decimal.quantize(Decimal("0.01"), ROUND_HALF_UP)` is embedded as
`roundHalfUp2`.  Python strings are embedded as Lean `String`s, with the
ASCII-level primitives (`upper`, `split`, slicing, `startswith`, `replace`)
re-implemented structurally over the character list so that every definition
evaluates by kernel reduction.  A Python expression that can raise
(`postcode.upper().split()[0]` raises `IndexError` on a whitespace-only
string) is embedded with `Option`, `none` standing for the raised exception.
-/

/-- ASCII embedding of Python `str.upper()` (character-wise upper-casing). -/
def pyUpper (s : String) : String :=
  String.mk (s.data.map Char.toUpper)

/-- Embedding of Python's `sub in s` membership test for a single character. -/
def pyContainsChar (s : String) (c : Char) : Bool :=
  s.data.contains c

/-- Embedding of Python `s[:n]` (string slice, lenient on short strings). -/
def pyTake (s : String) (n : Nat) : String :=
  String.mk (s.data.take n)

/-- Helper for `pySplitWs`: accumulates the current run of non-whitespace
characters (in reverse) and emits a token at each whitespace boundary. -/
def pySplitWsAux : List Char → List Char → List String
  | [], acc => if acc.isEmpty then [] else [String.mk acc.reverse]
  | c :: cs, acc =>
    if c.isWhitespace then
      if acc.isEmpty then pySplitWsAux cs []
      else String.mk acc.reverse :: pySplitWsAux cs []
    else pySplitWsAux cs (c :: acc)

/-- Embedding of Python `str.split()` with no arguments: split on runs of
whitespace, never producing empty tokens. -/
def pySplitWs (s : String) : List String :=
  pySplitWsAux s.data []

/-- Embedding of Python `s.startswith(p)`. -/
def pyStartsWith (s p : String) : Bool :=
  s.data.take p.data.length == p.data

/-- Embedding of Python `s.replace(old, "")` for a single character `old`. -/
def pyRemoveChar (s : String) (c : Char) : String :=
  String.mk (s.data.filter (fun a => a ≠ c))

/-- Python `Decimal.quantize(Decimal("0.01"), rounding=ROUND_HALF_UP)` on an
exact decimal: round to 2 decimal places, ties away from zero.
(`Rat.floor` is used rather than `⌊ ⌋` so the definition evaluates by kernel
reduction; `ratFloor_eq` bridges the two.) -/
def roundHalfUp2 (q : ℚ) : ℚ :=
  if 0 ≤ q then ((q * 100 + 1 / 2).floor : ℚ) / 100
  else -(((-(q * 100) + 1 / 2).floor : ℚ) / 100)

/-- A rational is decimal-exact to 2 decimal places. -/
def twoDP (q : ℚ) : Prop := ∃ n : ℤ, q = (n : ℚ) / 100

/-- Embedding of Python ASCII `str.title()`: the first character of each
maximal run of letters is upper-cased, the rest of the run lower-cased. -/
def pyTitleAux : List Char → Bool → List Char
  | [], _ => []
  | c :: cs, prevAlpha =>
    (if c.isAlpha then (if prevAlpha then c.toLower else c.toUpper) else c)
      :: pyTitleAux cs c.isAlpha

/-- Embedding of Python `s.title()` (ASCII). -/
def pyTitle (s : String) : String :=
  String.mk (pyTitleAux s.data false)

/-- Embedding of Python `s.replace(a, b)` for single characters. -/
def pyReplaceChar (s : String) (a b : Char) : String :=
  String.mk (s.data.map fun c => if c = a then b else c)

namespace LeadIntake

/-- The four scoring axes of a lead submission
(`LeadSubmission` in `agent-1-lead-intake/api/main.py`; the contact fields
are opaque to the scorer and omitted). -/
structure LeadSubmission where
  budget_range : String
  timeline : String
  postcode : String
  project_type : String

/-- `LeadScore` result model from `agent-1-lead-intake/api/main.py`. -/
structure LeadScore where
  total_score : Nat
  budget_score : Nat
  timeline_score : Nat
  location_score : Nat
  project_score : Nat
  qualification : String
deriving DecidableEq

/-- The `scores` dict of `LeadScoringEngine._score_budget`. -/
def budget_scores : List (String × Nat) :=
  [("200000_plus", 30), ("100000-200000", 27), ("50000-100000", 23),
   ("25000-50000", 18), ("10000-25000", 12), ("under_10000", 6),
   ("not_sure", 15)]

/-- `LeadScoringEngine._score_budget`: dict lookup with default 10. -/
def score_budget (budget_range : String) : Nat :=
  (budget_scores.lookup budget_range).getD 10

/-- The `scores` dict of `LeadScoringEngine._score_timeline`. -/
def timeline_scores : List (String × Nat) :=
  [("asap", 25), ("1-3_months", 22), ("3-6_months", 16), ("6-12_months", 10),
   ("flexible", 14)]

/-- `LeadScoringEngine._score_timeline`: dict lookup with default 10. -/
def score_timeline (timeline : String) : Nat :=
  (timeline_scores.lookup timeline).getD 10

/-- The `scores` dict of `LeadScoringEngine._score_project_type`. -/
def project_scores : List (String × Nat) :=
  [("full_renovation", 20), ("extension", 19), ("loft_conversion", 18),
   ("kitchen", 16), ("bathroom", 14), ("flooring", 10), ("painting", 8),
   ("electrical", 12), ("plumbing", 12), ("landscaping", 10), ("other", 10)]

/-- `LeadScoringEngine._score_project_type`: dict lookup with default 10. -/
def score_project_type (project_type : String) : Nat :=
  (project_scores.lookup project_type).getD 10

/-- `LeadScoringEngine.PREMIUM_POSTCODES`. -/
def PREMIUM_POSTCODES : List String :=
  ["NW3", "NW6", "NW8", "NW11", "N6", "N2", "N10"]

/-- The postcode-leading-token extraction of `LeadScoringEngine._score_location`:
`postcode.upper().split()[0] if " " in postcode else postcode[:3].upper()`.
`none` models the `IndexError` raised when the postcode contains a space but
`split()` returns no token (whitespace-only postcode). -/
def extractPfx (postcode : String) : Option String :=
  if pyContainsChar postcode ' ' then (pySplitWs (pyUpper postcode)).head?
  else some (pyUpper (pyTake postcode 3))

/-- `LeadScoringEngine._score_location` (max 25 points); `none` models the
`IndexError` on whitespace-only postcodes that contain a space. -/
def score_location (postcode : String) : Option Nat :=
  (extractPfx postcode).map fun pfx =>
    if PREMIUM_POSTCODES.any (fun p => pyStartsWith pfx p) then 25
    else if pyStartsWith pfx "N" || pyStartsWith pfx "NW" then 20
    else if pyStartsWith pfx "W" || pyStartsWith pfx "SW" then 18
    else 12

/-- `LeadScoringEngine.calculate_score`; `none` models the `IndexError`
propagated out of `_score_location`. -/
def calculate_score (lead : LeadSubmission) : Option LeadScore :=
  (score_location lead.postcode).map fun location_score =>
    let budget_score := score_budget lead.budget_range
    let timeline_score := score_timeline lead.timeline
    let project_score := score_project_type lead.project_type
    let total_score := budget_score + timeline_score + location_score + project_score
    let qualification :=
      if total_score ≥ 80 then "hot"
      else if total_score ≥ 50 then "warm"
      else "cold"
    ⟨total_score, budget_score, timeline_score, location_score,
     project_score, qualification⟩

/-- The location-scoring rule exactly as claim C3 words it: the extracted
leading token is scored 25 when it is a member of the premium list (rather
than when it merely starts with a member, as the source does). -/
def claimedLocationScore (postcode : String) : Option Nat :=
  (extractPfx postcode).map fun pfx =>
    if pfx ∈ PREMIUM_POSTCODES then 25
    else if pyStartsWith pfx "N" then 20
    else if pyStartsWith pfx "W" || pyStartsWith pfx "SW" then 18
    else 12

end LeadIntake

namespace QuoteBuilder

/-- `LineItem` model from `agent-3-office-ops/quote-builder/generator.py`. -/
structure LineItem where
  description : String
  quantity : ℚ := 1
  unit : String := "item"
  unit_price : ℚ
deriving DecidableEq

/-- `LineItem.total`: `(quantity * unit_price).quantize(Decimal("0.01"), ROUND_HALF_UP)`. -/
def lineTotal (li : LineItem) : ℚ :=
  roundHalfUp2 (li.quantity * li.unit_price)

/-- `QuoteSection` model. -/
structure QuoteSection where
  name : String
  items : List LineItem
deriving DecidableEq

/-- `QuoteSection.subtotal`: sum of the item totals. -/
def sectionSubtotal (s : QuoteSection) : ℚ :=
  (s.items.map lineTotal).sum

/-- One catalog item as read from the pricing-matrix JSON: the optional
`tiers` key, the optional per-tier `price_<tier>` keys (an association list
keyed by tier name), the optional `price_from`/`price` keys, and `quantity`
(JSON default 1). -/
structure CatalogItem where
  name : String := "Item"
  tiers : Option (List String) := none
  priceByTier : List (String × ℚ) := []
  price_from : Option ℚ := none
  price : Option ℚ := none
  quantity : ℚ := 1
  unit : String := "item"

/-- One `{threshold, discount_percentage}` entry of the volume-discount table. -/
structure VolumeDiscount where
  threshold : ℚ
  discount_percentage : ℚ
deriving DecidableEq

/-- One category of the pricing matrix. -/
structure Category where
  base_items : List CatalogItem := []
  premium_upgrades : List CatalogItem := []

/-- The pricing matrix held by `PricingEngine` (`categories`,
`location_factors`, `volume_discounts`), already loaded; claims C5-C10
quantify over its content, so it is a parameter here. -/
structure PricingData where
  categories : List (String × Category) := []
  location_factors : List (String × ℚ) := []
  volume_discounts : List VolumeDiscount := []

/-- `CustomerDetails.location_area`: strip spaces from the upper-cased
postcode and test the NW3/NW6/NW11 premium areas in order. -/
def location_area (postcode : String) : Option String :=
  let pc := pyRemoveChar (pyUpper postcode) ' '
  if pyStartsWith pc "NW3" then some "NW3"
  else if pyStartsWith pc "NW6" then some "NW6"
  else if pyStartsWith pc "NW11" then some "NW11"
  else none

/-- `PricingEngine.get_location_factor`: table lookup with default 1.0. -/
def get_location_factor (pd : PricingData) (area : Option String) : ℚ :=
  match area with
  | none => 1
  | some a => (pd.location_factors.lookup a).getD 1

/-- The price chosen by `PricingEngine.get_base_items` for one item:
`price_<tier>` when present, else `price_from`, else `price`, else 0. -/
def tierKeyPrice (item : CatalogItem) (tier : String) : ℚ :=
  match item.priceByTier.lookup tier with
  | some p => p
  | none =>
    match item.price_from with
    | some p => p
    | none => item.price.getD 0

/-- `PricingEngine.get_base_items`: items of the requested category whose
tier list (default all three tiers) contains the requested tier, priced with
the tier-specific fallback chain, scaled by the location factor and rounded
half-up to 2 decimal places. -/
def get_base_items (pd : PricingData) (project_type tier : String)
    (location_factor : ℚ) : List LineItem :=
  let category := (pd.categories.lookup project_type).getD {}
  (category.base_items.filter
      (fun item => (item.tiers.getD ["essential", "premium", "luxury"]).contains tier)).map
    fun item =>
      { description := item.name
        quantity := item.quantity
        unit := item.unit
        unit_price := roundHalfUp2 (tierKeyPrice item tier * location_factor) }

/-- `PricingEngine.get_premium_upgrades`: empty for the essential tier; else
the category's `premium_upgrades` whose tier list (default
`["premium", "luxury"]`) contains the tier, priced from
`price_from`/`price`, scaled and rounded; quantity fixed at 1. -/
def get_premium_upgrades (pd : PricingData) (project_type tier : String)
    (location_factor : ℚ) : List LineItem :=
  if tier = "essential" then []
  else
    let category := (pd.categories.lookup project_type).getD {}
    (category.premium_upgrades.filter
        (fun item => (item.tiers.getD ["premium", "luxury"]).contains tier)).map
      fun item =>
        { description := item.name
          quantity := 1
          unit := item.unit
          unit_price := roundHalfUp2 ((item.price_from.getD (item.price.getD 0)) * location_factor) }

/-- Ascending-threshold order on volume-discount entries. -/
def thLE (a b : VolumeDiscount) : Prop := a.threshold ≤ b.threshold

instance : DecidableRel thLE :=
  fun a b => inferInstanceAs (Decidable (a.threshold ≤ b.threshold))

instance : IsTotal VolumeDiscount thLE := ⟨fun a b => le_total a.threshold b.threshold⟩

instance : IsTrans VolumeDiscount thLE := ⟨fun _ _ _ h1 h2 => le_trans h1 h2⟩

/-- Python `sorted(self.volume_discounts, key=lambda x: x["threshold"])`:
a stable ascending sort by threshold (insertion sort is stable for a total
preorder, so it agrees with Python's stable sort). -/
def sortedDiscounts (l : List VolumeDiscount) : List VolumeDiscount :=
  l.insertionSort thLE

/-- `PricingEngine.calculate_volume_discount`: fold over the
threshold-sorted table, keeping the percentage of the last entry whose
threshold does not exceed the subtotal; 0 when none qualifies. -/
def calculate_volume_discount (pd : PricingData) (subtotal : ℚ) : ℚ :=
  (sortedDiscounts pd.volume_discounts).foldl
    (fun acc d => if d.threshold ≤ subtotal then d.discount_percentage else acc) 0

/-- The quote-relevant fields of a `QuoteRequest`. -/
structure QuoteRequest where
  postcode : String
  project_type : String
  tier : String := "premium"
  include_optional_items : Bool := true

/-- The monetary result of `QuoteService.generate`: its sections, the
selected discount percentage, and the `subtotal`/`vat`/`total` fields of the
returned `GeneratedQuote` (the id/path/date fields are I/O and out of scope). -/
structure GeneratedQuote where
  sections : List QuoteSection
  discount_percentage : ℚ
  subtotal : ℚ
  vat : ℚ
  total : ℚ
deriving DecidableEq

/-- The base-items section name built in `QuoteService.generate`:
`f"{project_type.replace('_', ' ').title()} - Core Works"`. -/
def coreWorksName (project_type : String) : String :=
  pyTitle (pyReplaceChar project_type '_' ' ') ++ " - Core Works"

/-- The `location_factor` local of `QuoteService.generate`. -/
def locFactor (pd : PricingData) (req : QuoteRequest) : ℚ :=
  get_location_factor pd (location_area req.postcode)

/-- The base-items section of `QuoteService.generate`: appended only when
`get_base_items` is non-empty. -/
def baseSectionList (pd : PricingData) (req : QuoteRequest) : List QuoteSection :=
  if (get_base_items pd req.project_type req.tier (locFactor pd req)).isEmpty then []
  else [⟨coreWorksName req.project_type,
         get_base_items pd req.project_type req.tier (locFactor pd req)⟩]

/-- The premium-upgrades section of `QuoteService.generate`: built only when
`request.project.tier in ["premium", "luxury"]`, appended only when
`get_premium_upgrades` is non-empty.  Note the source never consults
`request.include_optional_items`. -/
def upgradeSectionList (pd : PricingData) (req : QuoteRequest) : List QuoteSection :=
  if req.tier = "premium" ∨ req.tier = "luxury" then
    if (get_premium_upgrades pd req.project_type req.tier (locFactor pd req)).isEmpty then []
    else [⟨"Premium Upgrades & Enhancements",
           get_premium_upgrades pd req.project_type req.tier (locFactor pd req)⟩]
  else []

/-- The `sections` list of `QuoteService.generate` (base section first, then
the optional upgrades section). -/
def buildSections (pd : PricingData) (req : QuoteRequest) : List QuoteSection :=
  baseSectionList pd req ++ upgradeSectionList pd req

/-- The pre-discount `subtotal` local of `QuoteService.generate`:
`sum(section.subtotal for section in sections)`. -/
def preDiscountSubtotal (pd : PricingData) (req : QuoteRequest) : ℚ :=
  ((buildSections pd req).map sectionSubtotal).sum

/-- The `discount_percentage` local of `QuoteService.generate`. -/
def discountPct (pd : PricingData) (req : QuoteRequest) : ℚ :=
  calculate_volume_discount pd (preDiscountSubtotal pd req)

/-- The re-assigned `subtotal` local of `QuoteService.generate`: the volume
discount is subtracted only when the selected percentage is strictly
positive. -/
def discountedSubtotal (pd : PricingData) (req : QuoteRequest) : ℚ :=
  if 0 < discountPct pd req then
    preDiscountSubtotal pd req - preDiscountSubtotal pd req * (discountPct pd req / 100)
  else preDiscountSubtotal pd req

/-- The monetary pipeline of `QuoteService.generate`: sections, volume
discount, VAT at `Decimal("0.20")` rounded half-up to 2 decimal places, and
the total. -/
def generate (pd : PricingData) (req : QuoteRequest) : GeneratedQuote :=
  ⟨buildSections pd req, discountPct pd req, discountedSubtotal pd req,
   roundHalfUp2 (discountedSubtotal pd req * (20 / 100)),
   discountedSubtotal pd req + roundHalfUp2 (discountedSubtotal pd req * (20 / 100))⟩

/-- Spec's end-to-end pricing scenario 3 as a concrete catalog. -/
def scenario3Data : PricingData :=
  { categories :=
      [("kitchen",
        { base_items := [{ name := "Base kitchen package", price_from := some 100 }] })]
    volume_discounts := [⟨1000, 5⟩] }

/-- Scenario-3 request: kitchen, essential tier, no location premium. -/
def scenario3Req : QuoteRequest :=
  { postcode := "SE1 1AA", project_type := "kitchen", tier := "essential" }

/-- The claim's selection rule for the volume discount: the last qualifying
entry of the ascending-sorted table (equivalently, the entry with the
highest threshold not exceeding the subtotal), or 0 when no entry
qualifies. -/
def specVolumeDiscount (pd : PricingData) (s : ℚ) : ℚ :=
  (((sortedDiscounts pd.volume_discounts).reverse.find?
      (fun d => decide (d.threshold ≤ s))).map
    (fun e => e.discount_percentage)).getD 0

/-- A monotone nonnegative volume-discount table, for the C6/C7 witnesses. -/
def pdMono : PricingData :=
  { volume_discounts := [⟨1000, 5⟩, ⟨5000, 10⟩] }

/-- A table with a negative discount percentage, under which the unguarded
application formula of C6 diverges from the source's `if discount > 0`
guard. -/
def pdNeg : PricingData :=
  { categories :=
      [("kitchen", { base_items := [{ name := "Survey", price_from := some 10 }] })]
    volume_discounts := [⟨0, -5⟩] }

/-- The request used with `pdNeg`. -/
def reqNeg : QuoteRequest :=
  { postcode := "SE1 1AA", project_type := "kitchen", tier := "essential" }

/-- A sensible-looking but non-monotone table. -/
def pdNonMono : PricingData :=
  { volume_discounts := [⟨100, 10⟩, ⟨200, 5⟩] }

/-- A catalog whose single base item costs 1000.01 with a 5% discount at
threshold 1000: the discounted subtotal is 950.0095, four decimal places. -/
def pdX : PricingData :=
  { categories :=
      [("kitchen",
        { base_items :=
            [{ name := "Base renovation package", price_from := some (100001 / 100) }] })]
    volume_discounts := [⟨1000, 5⟩] }

/-- The request used with `pdX`. -/
def reqX : QuoteRequest :=
  { postcode := "SE1 1AA", project_type := "kitchen", tier := "essential" }

/-- A catalog whose kitchen category has one premium upgrade. -/
def pdU : PricingData :=
  { categories :=
      [("kitchen", { premium_upgrades := [{ name := "Gold taps", price_from := some 100 }] })] }

/-- A premium-tier request that explicitly opts *out* of upgrades. -/
def reqU : QuoteRequest :=
  { postcode := "SE1 1AA", project_type := "kitchen", tier := "premium",
    include_optional_items := false }

/-- An empty catalog, for the C9 witness. -/
def pdEmpty : PricingData := {}

/-- A request whose project type appears in no catalog category. -/
def reqBogus : QuoteRequest :=
  { postcode := "SE1 1AA", project_type := "garage", tier := "premium" }

end QuoteBuilder

/-- `Rat.floor` agrees with the `FloorRing` floor. -/
theorem ratFloor_eq (q : ℚ) : q.floor = ⌊q⌋ := rfl

/-- Evaluation rule for `roundHalfUp2` on a nonnegative rational. -/
theorem roundHalfUp2_eval {q : ℚ} {n : ℤ} (h0 : 0 ≤ q)
    (h1 : (n : ℚ) ≤ q * 100 + 1 / 2) (h2 : q * 100 + 1 / 2 < n + 1) :
    roundHalfUp2 q = (n : ℚ) / 100 := by
  unfold roundHalfUp2
  rw [if_pos h0, ratFloor_eq, Int.floor_eq_iff.mpr ⟨h1, h2⟩]

/-- `roundHalfUp2` always produces a 2-decimal-place value. -/
theorem twoDP_roundHalfUp2 (q : ℚ) : twoDP (roundHalfUp2 q) := by
  unfold roundHalfUp2
  split_ifs
  · exact ⟨(q * 100 + 1 / 2).floor, rfl⟩
  · exact ⟨-(-(q * 100) + 1 / 2).floor, by push_cast; ring⟩

namespace LeadIntake

example : score_location "NW3 1QE" = some 25 := by decide
example : score_location "NW31QE" = some 25 := by decide
example : score_location "N251AA" = some 25 := by decide
example : claimedLocationScore "N251AA" = some 20 := by decide
example : score_location "   " = none := by decide
example : calculate_score ⟨"200000_plus", "asap", "NW3 1AA", "full_renovation"⟩ =
    some ⟨100, 30, 25, 25, 20, "hot"⟩ := by decide
example : calculate_score ⟨"under_10000", "flexible", "SE1 1AA", "painting"⟩ =
    some ⟨40, 6, 14, 12, 8, "cold"⟩ := by decide

/-- The qualification if-chain of `calculate_score`, characterized as the
three half-open score bands. -/
theorem qual_bands (t : Nat) :
    ((if t ≥ 80 then "hot" else if t ≥ 50 then "warm" else "cold") = "hot" ↔ 80 ≤ t) ∧
    ((if t ≥ 80 then "hot" else if t ≥ 50 then "warm" else "cold") = "warm" ↔
      50 ≤ t ∧ t < 80) ∧
    ((if t ≥ 80 then "hot" else if t ≥ 50 then "warm" else "cold") = "cold" ↔ t < 50) := by
  split_ifs with h1 h2 <;>
    refine ⟨⟨fun hh => ?_, fun hh => ?_⟩, ⟨fun hh => ?_, fun hh => ?_⟩,
      ⟨fun hh => ?_, fun hh => ?_⟩⟩ <;>
    first
      | rfl
      | omega
      | exact absurd hh (by decide)

/-- Claim C1: the qualification returned by `calculate_score` is `hot` iff
`total_score >= 80`, `warm` iff `50 <= total_score < 80`, and `cold` iff
`total_score < 50`; the lower bound of each tier is inclusive. -/
theorem c1_qualification_tiers (lead : LeadSubmission) (sc : LeadScore)
    (h : calculate_score lead = some sc) :
    (sc.qualification = "hot" ↔ 80 ≤ sc.total_score) ∧
    (sc.qualification = "warm" ↔ 50 ≤ sc.total_score ∧ sc.total_score < 80) ∧
    (sc.qualification = "cold" ↔ sc.total_score < 50) := by
  unfold calculate_score at h
  cases hl : score_location lead.postcode with
  | none => rw [hl] at h; cases h
  | some ls =>
    rw [hl] at h
    simp only [Option.map_some', Option.some.injEq] at h
    subst h
    exact qual_bands _

/-- Witness for C1 at the spec's end-to-end scenario 1. -/
theorem c1_qualification_tiers_witness :
    calculate_score ⟨"200000_plus", "asap", "NW3 1AA", "full_renovation"⟩ =
      some ⟨100, 30, 25, 25, 20, "hot"⟩ ∧
    (LeadScore.qualification ⟨100, 30, 25, 25, 20, "hot"⟩ = "hot" ↔
      80 ≤ LeadScore.total_score ⟨100, 30, 25, 25, 20, "hot"⟩) :=
  ⟨by decide,
   (c1_qualification_tiers ⟨"200000_plus", "asap", "NW3 1AA", "full_renovation"⟩
     ⟨100, 30, 25, 25, 20, "hot"⟩ (by decide)).1⟩

/-- A defaulted association-list lookup yields the default off the key set. -/
theorem lookup_default (d : Nat) :
    ∀ (l : List (String × Nat)) (a : String), a ∉ l.map Prod.fst →
      (l.lookup a).getD d = d
  | [], _, _ => rfl
  | (k, v) :: t, a, ha => by
    simp only [List.map_cons, List.mem_cons, not_or] at ha
    have hk : (a == k) = false := beq_eq_false_iff_ne.mpr ha.1
    simpa [List.lookup, hk] using lookup_default d t a ha.2

/-- Claim C2: the three axis tables score exactly the tabulated values, and
any string outside a table's key set scores the per-axis default of 10. -/
theorem c2_axis_tables :
    (score_budget "200000_plus" = 30 ∧ score_budget "100000-200000" = 27 ∧
     score_budget "50000-100000" = 23 ∧ score_budget "25000-50000" = 18 ∧
     score_budget "10000-25000" = 12 ∧ score_budget "under_10000" = 6 ∧
     score_budget "not_sure" = 15) ∧
    (score_timeline "asap" = 25 ∧ score_timeline "1-3_months" = 22 ∧
     score_timeline "3-6_months" = 16 ∧ score_timeline "6-12_months" = 10 ∧
     score_timeline "flexible" = 14) ∧
    (score_project_type "full_renovation" = 20 ∧ score_project_type "extension" = 19 ∧
     score_project_type "loft_conversion" = 18 ∧ score_project_type "kitchen" = 16 ∧
     score_project_type "bathroom" = 14 ∧ score_project_type "electrical" = 12 ∧
     score_project_type "plumbing" = 12 ∧ score_project_type "flooring" = 10 ∧
     score_project_type "landscaping" = 10 ∧ score_project_type "other" = 10 ∧
     score_project_type "painting" = 8) ∧
    (∀ b, b ∉ budget_scores.map Prod.fst → score_budget b = 10) ∧
    (∀ t, t ∉ timeline_scores.map Prod.fst → score_timeline t = 10) ∧
    (∀ p, p ∉ project_scores.map Prod.fst → score_project_type p = 10) := by
  refine ⟨by decide, by decide, by decide, ?_, ?_, ?_⟩ <;>
    exact fun a ha => lookup_default 10 _ a ha

/-- Witness for C2: an off-table value takes the default on each axis. -/
theorem c2_axis_tables_witness :
    score_budget "garage_conversion" = 10 ∧ score_timeline "garage_conversion" = 10 ∧
      score_project_type "garage_conversion" = 10 :=
  ⟨c2_axis_tables.2.2.2.1 "garage_conversion" (by decide),
   c2_axis_tables.2.2.2.2.1 "garage_conversion" (by decide),
   c2_axis_tables.2.2.2.2.2 "garage_conversion" (by decide)⟩

/-- Counterexample to C3 as stated: for the postcode `N251AA` the extracted
leading token is `N25`; the source scores it 25 because `"N25".startswith("N2")`
holds against the premium list, while the claim's exact premium-list
membership (`N25` is not in the list, it merely starts with `N`) yields 20. -/
theorem c3_counterexample :
    score_location "N251AA" = some 25 ∧ claimedLocationScore "N251AA" = some 20 :=
  ⟨by decide, by decide⟩

/-- A string whose first two characters are `NW` has first character `N`. -/
theorem startsWith_NW_N {p : String} (h : pyStartsWith p "NW" = true) :
    pyStartsWith p "N" = true := by
  unfold pyStartsWith at h ⊢
  rw [beq_iff_eq] at h ⊢
  have hNW : "NW".data = ['N', 'W'] := by decide
  have hN : "N".data = ['N'] := by decide
  rw [hNW] at h
  rw [hN]
  cases hd : p.data with
  | nil => rw [hd] at h; simp at h
  | cons c t =>
    rw [hd] at h
    cases t with
    | nil => simp at h
    | cons c2 t2 =>
      simp only [List.length_cons, List.length_nil, List.take_succ_cons,
        List.take_zero, List.cons.injEq] at h ⊢
      exact ⟨h.1, trivial⟩

/-- Claim C3 (amended): the location score is obtained from the extracted
leading token (token before the space when the postcode contains one, else
the first three characters, uppercased); a token that *starts with* one of
the premium codes scores 25 (the source's `startswith` test, not exact
membership), else a token starting with `N` scores 20, else `W`/`SW` scores
18, else 12.  Both `NW3 1QE` and `NW31QE` resolve to token `NW3` and score
25.  Extraction (hence the score) is undefined only for whitespace-only
postcodes that contain a space, where the source raises `IndexError`. -/
theorem c3_location_rule (postcode pfx : String)
    (h : extractPfx postcode = some pfx) :
    score_location postcode =
      some (if PREMIUM_POSTCODES.any (fun p => pyStartsWith pfx p) then 25
            else if pyStartsWith pfx "N" then 20
            else if pyStartsWith pfx "W" || pyStartsWith pfx "SW" then 18
            else 12) ∧
    extractPfx "NW3 1QE" = some "NW3" ∧ extractPfx "NW31QE" = some "NW3" ∧
    score_location "NW3 1QE" = some 25 ∧ score_location "NW31QE" = some 25 := by
  refine ⟨?_, by decide, by decide, by decide, by decide⟩
  have hor : (pyStartsWith pfx "N" || pyStartsWith pfx "NW") = pyStartsWith pfx "N" := by
    cases hb : pyStartsWith pfx "NW"
    · simp
    · simp [startsWith_NW_N hb]
  unfold score_location
  rw [h, Option.map_some', hor]

/-- Witness for C3 at the spaced premium postcode. -/
theorem c3_location_rule_witness :
    score_location "NW3 1QE" =
      some (if PREMIUM_POSTCODES.any (fun p => pyStartsWith "NW3" p) then 25
            else if pyStartsWith "NW3" "N" then 20
            else if pyStartsWith "NW3" "W" || pyStartsWith "NW3" "SW" then 18
            else 12) :=
  (c3_location_rule "NW3 1QE" "NW3" (by decide)).1

/-- Counterexample to C4 as stated: C4 quantifies over arbitrary postcode
strings, but on a whitespace-only postcode containing a space
(`"   "`) the source raises `IndexError` (`"".upper().split()[0]` on an
empty token list) instead of returning a total score in `[0, 100]`. -/
theorem c4_counterexample :
    calculate_score ⟨"200000_plus", "asap", "   ", "kitchen"⟩ = none := by decide

/-- A defaulted lookup is bounded when the default and all values are. -/
theorem lookup_le (d m : Nat) (hd : d ≤ m) :
    ∀ (l : List (String × Nat)), (∀ p ∈ l, p.2 ≤ m) → ∀ a, (l.lookup a).getD d ≤ m
  | [], _, _ => hd
  | (k, v) :: t, hv, a => by
    cases hk : a == k
    · simpa [List.lookup, hk] using
        lookup_le d m hd t (fun p hp => hv p (List.mem_cons_of_mem _ hp)) a
    · simpa [List.lookup, hk] using hv (k, v) (List.mem_cons_self _ _)

/-- Whenever the location score is defined it lies in `[12, 25]`. -/
theorem score_location_bounds {pc : String} {n : Nat}
    (h : score_location pc = some n) : 12 ≤ n ∧ n ≤ 25 := by
  unfold score_location at h
  cases he : extractPfx pc with
  | none => rw [he] at h; cases h
  | some pfx =>
    rw [he] at h
    simp only [Option.map_some', Option.some.injEq] at h
    subst h
    split_ifs <;> omega

/-- Claim C4 (amended): whenever `calculate_score` returns (i.e. for every
postcode except the whitespace-only-with-space ones on which the source
raises), the total equals the sum of the four component scores and lies in
`[0, 100]`, with no explicit clamping. -/
theorem c4_total_bounds (lead : LeadSubmission) (sc : LeadScore)
    (h : calculate_score lead = some sc) :
    sc.total_score =
      sc.budget_score + sc.timeline_score + sc.location_score + sc.project_score ∧
    sc.total_score ≤ 100 := by
  unfold calculate_score at h
  cases hl : score_location lead.postcode with
  | none => rw [hl] at h; cases h
  | some ls =>
    rw [hl] at h
    simp only [Option.map_some', Option.some.injEq] at h
    subst h
    have hb : score_budget lead.budget_range ≤ 30 :=
      lookup_le 10 30 (by omega) budget_scores (by decide) _
    have ht : score_timeline lead.timeline ≤ 25 :=
      lookup_le 10 25 (by omega) timeline_scores (by decide) _
    have hp : score_project_type lead.project_type ≤ 20 :=
      lookup_le 10 20 (by omega) project_scores (by decide) _
    have hloc := (score_location_bounds hl).2
    exact ⟨rfl, by dsimp only; omega⟩

/-- Witness for C4 at the spec's end-to-end scenario 2. -/
theorem c4_total_bounds_witness :
    calculate_score ⟨"under_10000", "flexible", "SE1 1AA", "painting"⟩ =
      some ⟨40, 6, 14, 12, 8, "cold"⟩ ∧
    LeadScore.total_score ⟨40, 6, 14, 12, 8, "cold"⟩ ≤ 100 :=
  ⟨by decide,
   (c4_total_bounds ⟨"under_10000", "flexible", "SE1 1AA", "painting"⟩
     ⟨40, 6, 14, 12, 8, "cold"⟩ (by decide)).2⟩

end LeadIntake

namespace QuoteBuilder

example : generate scenario3Data scenario3Req =
    ⟨[⟨"Kitchen - Core Works", [⟨"Base kitchen package", 1, "item", 100⟩]⟩],
     0, 100, 20, 120⟩ := by
  have h1 : roundHalfUp2 ((100 : ℚ) * 1) = 100 := by
    have h := roundHalfUp2_eval (q := (100 : ℚ) * 1) (n := 10000)
      (by norm_num) (by norm_num) (by norm_num)
    rw [h]; norm_num
  have h2 : roundHalfUp2 ((1 : ℚ) * 100) = 100 := by
    have h := roundHalfUp2_eval (q := (1 : ℚ) * 100) (n := 10000)
      (by norm_num) (by norm_num) (by norm_num)
    rw [h]; norm_num
  have hpre : preDiscountSubtotal scenario3Data scenario3Req = 100 := by
    show roundHalfUp2 ((1 : ℚ) * roundHalfUp2 ((100 : ℚ) * 1)) + 0 + 0 = 100
    rw [h1, h2]
    norm_num
  have hpct : discountPct scenario3Data scenario3Req = 0 := by
    unfold discountPct
    rw [hpre]
    show (if (1000 : ℚ) ≤ 100 then (5 : ℚ) else 0) = 0
    rw [if_neg (by norm_num)]
  have hsub : discountedSubtotal scenario3Data scenario3Req = 100 := by
    unfold discountedSubtotal
    rw [hpct, hpre, if_neg (by norm_num)]
  have hvat : roundHalfUp2 (discountedSubtotal scenario3Data scenario3Req * (20 / 100)) = 20 := by
    rw [hsub]
    have h := roundHalfUp2_eval (q := (100 : ℚ) * (20 / 100)) (n := 2000)
      (by norm_num) (by norm_num) (by norm_num)
    rw [h]; norm_num
  have hsec : buildSections scenario3Data scenario3Req =
      [⟨"Kitchen - Core Works", [⟨"Base kitchen package", 1, "item", 100⟩]⟩] := by
    show [(⟨"Kitchen - Core Works",
      [⟨"Base kitchen package", 1, "item", roundHalfUp2 ((100 : ℚ) * 1)⟩]⟩ : QuoteSection)] = _
    rw [h1]
  show GeneratedQuote.mk _ _ _ _ _ = _
  rw [GeneratedQuote.mk.injEq]
  refine ⟨hsec, hpct, hsub, hvat, ?_⟩
  rw [hvat, hsub]
  norm_num

/-- The engine's fold keeps the discount of the last qualifying entry. -/
theorem foldl_discount_eq (s : ℚ) :
    ∀ (l : List VolumeDiscount) (a : ℚ),
      l.foldl (fun acc d => if d.threshold ≤ s then d.discount_percentage else acc) a =
        ((l.reverse.find? (fun d => decide (d.threshold ≤ s))).map
          (fun e => e.discount_percentage)).getD a := by
  intro l
  induction l using List.reverseRecOn with
  | nil => intro a; rfl
  | append_singleton t e ih =>
    intro a
    rw [List.foldl_append, List.reverse_append]
    by_cases he : e.threshold ≤ s
    · simp only [List.foldl_cons, List.foldl_nil, List.reverse_cons, List.reverse_nil,
        List.nil_append, List.singleton_append]
      rw [List.find?_cons_of_pos _ (by simpa using he), if_pos he]
      rfl
    · simp only [List.foldl_cons, List.foldl_nil, List.reverse_cons, List.reverse_nil,
        List.nil_append, List.singleton_append]
      rw [List.find?_cons_of_neg _ (by simpa using he), if_neg he, ih a]

/-- In a descending-threshold list, the first qualifying entry found has the
largest threshold among all qualifying entries. -/
theorem find?_first_max {x : VolumeDiscount} {s : ℚ} :
    ∀ {l : List VolumeDiscount},
      l.Pairwise (fun a b => b.threshold ≤ a.threshold) →
      l.find? (fun d => decide (d.threshold ≤ s)) = some x →
      ∀ d ∈ l, d.threshold ≤ s → d.threshold ≤ x.threshold := by
  intro l
  induction l with
  | nil => intro _ h; cases h
  | cons a t ih =>
    intro hp hf d hd hds
    rw [List.pairwise_cons] at hp
    by_cases ha : a.threshold ≤ s
    · rw [List.find?_cons_of_pos _ (by simpa using ha)] at hf
      obtain rfl : a = x := by injection hf
      rcases List.mem_cons.mp hd with rfl | hd
      · exact le_refl _
      · exact hp.1 d hd
    · rw [List.find?_cons_of_neg _ (by simpa using ha)] at hf
      rcases List.mem_cons.mp hd with rfl | hd
      · exact absurd hds ha
      · exact ih hp.2 hf d hd hds

/-- Membership transfers through the stable sort. -/
theorem mem_sortedDiscounts {l : List VolumeDiscount} {d : VolumeDiscount} :
    d ∈ sortedDiscounts l ↔ d ∈ l :=
  List.mem_insertionSort thLE

/-- The sorted table is ascending by threshold. -/
theorem sortedDiscounts_pairwise (l : List VolumeDiscount) :
    (sortedDiscounts l).Pairwise thLE :=
  List.sorted_insertionSort thLE l

/-- Claim C6 (amended): the selected percentage is that of the last
qualifying entry when the table is iterated in ascending threshold order —
an entry whose threshold does not exceed the subtotal and is largest among
all such — and is 0 when the subtotal is below every threshold.  The
discount is applied as `subtotal' = subtotal - subtotal * pct / 100`
whenever the selected percentage is nonnegative (hence for every table of
nonnegative percentages); when the table yields a negative percentage the
source leaves the subtotal unchanged instead of applying the formula. -/
theorem c6_volume_discount (pd : PricingData) (s : ℚ) :
    calculate_volume_discount pd s = specVolumeDiscount pd s ∧
    ((∀ d ∈ pd.volume_discounts, s < d.threshold) → calculate_volume_discount pd s = 0) ∧
    (∀ e, (sortedDiscounts pd.volume_discounts).reverse.find?
          (fun d => decide (d.threshold ≤ s)) = some e →
      calculate_volume_discount pd s = e.discount_percentage ∧ e.threshold ≤ s ∧
        ∀ d ∈ pd.volume_discounts, d.threshold ≤ s → d.threshold ≤ e.threshold) ∧
    (∀ req, preDiscountSubtotal pd req = s → 0 ≤ calculate_volume_discount pd s →
      (generate pd req).subtotal = s - s * (calculate_volume_discount pd s / 100)) ∧
    (∀ req, preDiscountSubtotal pd req = s → calculate_volume_discount pd s < 0 →
      (generate pd req).subtotal = s) := by
  have hfold : calculate_volume_discount pd s =
      (((sortedDiscounts pd.volume_discounts).reverse.find?
          (fun d => decide (d.threshold ≤ s))).map
        (fun e => e.discount_percentage)).getD 0 :=
    foldl_discount_eq s _ 0
  refine ⟨hfold, ?_, ?_, ?_, ?_⟩
  · intro hall
    rw [hfold]
    cases hfind : (sortedDiscounts pd.volume_discounts).reverse.find?
        (fun d => decide (d.threshold ≤ s)) with
    | none => rfl
    | some e =>
      exfalso
      have hmem : e ∈ pd.volume_discounts :=
        mem_sortedDiscounts.mp (List.mem_reverse.mp (List.mem_of_find?_eq_some hfind))
      have hle : e.threshold ≤ s := by simpa using List.find?_some hfind
      exact absurd hle (not_le.mpr (hall e hmem))
  · intro e hf
    refine ⟨by rw [hfold, hf]; rfl, by simpa using List.find?_some hf, ?_⟩
    intro d hd hds
    have hdesc : (sortedDiscounts pd.volume_discounts).reverse.Pairwise
        (fun a b => b.threshold ≤ a.threshold) := by
      rw [List.pairwise_reverse]
      exact sortedDiscounts_pairwise pd.volume_discounts
    exact find?_first_max hdesc hf d
      (List.mem_reverse.mpr (mem_sortedDiscounts.mpr hd)) hds
  · intro req hr hnn
    show discountedSubtotal pd req = s - s * (calculate_volume_discount pd s / 100)
    unfold discountedSubtotal discountPct
    rw [hr]
    by_cases hpos : 0 < calculate_volume_discount pd s
    · rw [if_pos hpos]
    · rw [if_neg hpos, le_antisymm (not_lt.mp hpos) hnn]
      ring
  · intro req hr hneg
    show discountedSubtotal pd req = s
    unfold discountedSubtotal discountPct
    rw [hr, if_neg (not_lt.mpr (le_of_lt hneg))]

/-- Witness for C6: with both thresholds above the subtotal, the selected
discount is 0. -/
theorem c6_volume_discount_witness : calculate_volume_discount pdMono 50 = 0 :=
  (c6_volume_discount pdMono 50).2.1 (by decide)

/-- Counterexample to C6 as stated: with the table `[{threshold 0,
discount_percentage -5}]` and subtotal 10, the claim's unconditional formula
gives `10 - 10 * (-5) / 100 = 10.5`, but the source only subtracts when the
percentage is strictly positive and returns 10. -/
theorem c6_counterexample :
    calculate_volume_discount pdNeg (preDiscountSubtotal pdNeg reqNeg) = -5 ∧
    (generate pdNeg reqNeg).subtotal = 10 ∧
    preDiscountSubtotal pdNeg reqNeg - preDiscountSubtotal pdNeg reqNeg *
        (calculate_volume_discount pdNeg (preDiscountSubtotal pdNeg reqNeg) / 100) = 21 / 2 ∧
    (generate pdNeg reqNeg).subtotal ≠
      preDiscountSubtotal pdNeg reqNeg - preDiscountSubtotal pdNeg reqNeg *
        (calculate_volume_discount pdNeg (preDiscountSubtotal pdNeg reqNeg) / 100) := by
  have h1 : roundHalfUp2 ((10 : ℚ) * 1) = 10 := by
    have h := roundHalfUp2_eval (q := (10 : ℚ) * 1) (n := 1000)
      (by norm_num) (by norm_num) (by norm_num)
    rw [h]; norm_num
  have h2 : roundHalfUp2 ((1 : ℚ) * 10) = 10 := by
    have h := roundHalfUp2_eval (q := (1 : ℚ) * 10) (n := 1000)
      (by norm_num) (by norm_num) (by norm_num)
    rw [h]; norm_num
  have hpre : preDiscountSubtotal pdNeg reqNeg = 10 := by
    show roundHalfUp2 ((1 : ℚ) * roundHalfUp2 ((10 : ℚ) * 1)) + 0 + 0 = 10
    rw [h1, h2]
    norm_num
  have hpct : calculate_volume_discount pdNeg (preDiscountSubtotal pdNeg reqNeg) = -5 := by
    rw [hpre]
    show (if (0 : ℚ) ≤ 10 then (-5 : ℚ) else 0) = -5
    rw [if_pos (by norm_num)]
  have hsub : (generate pdNeg reqNeg).subtotal = 10 := by
    show discountedSubtotal pdNeg reqNeg = 10
    unfold discountedSubtotal discountPct
    rw [hpct, hpre, if_neg (by norm_num)]
  refine ⟨hpct, hsub, ?_, ?_⟩
  · rw [hpct, hpre]
    norm_num
  · rw [hsub, hpct, hpre]
    norm_num

/-- Monotonicity of the discount fold when the accumulator is dominated and
the discounts are non-decreasing along the list. -/
theorem foldl_discount_mono (s1 s2 : ℚ) (hs : s1 ≤ s2) :
    ∀ (l : List VolumeDiscount) (a1 a2 : ℚ), a1 ≤ a2 →
      (∀ d ∈ l, a1 ≤ d.discount_percentage) →
      l.Pairwise (fun a b => a.discount_percentage ≤ b.discount_percentage) →
      l.foldl (fun acc d => if d.threshold ≤ s1 then d.discount_percentage else acc) a1 ≤
        l.foldl (fun acc d => if d.threshold ≤ s2 then d.discount_percentage else acc) a2
  | [], _, _, ha, _, _ => ha
  | d :: t, a1, a2, ha, hall, hp => by
    rw [List.pairwise_cons] at hp
    simp only [List.foldl_cons]
    by_cases h1 : d.threshold ≤ s1
    · rw [if_pos h1, if_pos (le_trans h1 hs)]
      exact foldl_discount_mono s1 s2 hs t _ _ (le_refl _) hp.1 hp.2
    · rw [if_neg h1]
      by_cases h2 : d.threshold ≤ s2
      · rw [if_pos h2]
        exact foldl_discount_mono s1 s2 hs t _ _ (hall d (List.mem_cons_self _ _))
          (fun e he => hall e (List.mem_cons_of_mem _ he)) hp.2
      · rw [if_neg h2]
        exact foldl_discount_mono s1 s2 hs t _ _ ha
          (fun e he => hall e (List.mem_cons_of_mem _ he)) hp.2

/-- Claim C7 (amended): for tables whose discount percentages are
nonnegative and non-decreasing in threshold, a larger subtotal never
selects a smaller discount percentage.  (For arbitrary tables the claim
fails: see the counterexample.) -/
theorem c7_monotone (pd : PricingData) (s1 s2 : ℚ) (h12 : s1 ≤ s2)
    (hnn : ∀ d ∈ pd.volume_discounts, 0 ≤ d.discount_percentage)
    (hmono : ∀ a ∈ pd.volume_discounts, ∀ b ∈ pd.volume_discounts,
      a.threshold ≤ b.threshold → a.discount_percentage ≤ b.discount_percentage) :
    calculate_volume_discount pd s1 ≤ calculate_volume_discount pd s2 := by
  unfold calculate_volume_discount
  have hpair : (sortedDiscounts pd.volume_discounts).Pairwise
      (fun a b => a.discount_percentage ≤ b.discount_percentage) :=
    (sortedDiscounts_pairwise pd.volume_discounts).imp_of_mem
      (fun ha hb hr => hmono _ (mem_sortedDiscounts.mp ha) _ (mem_sortedDiscounts.mp hb) hr)
  exact foldl_discount_mono s1 s2 h12 _ 0 0 (le_refl 0)
    (fun d hd => hnn d (mem_sortedDiscounts.mp hd)) hpair

/-- Witness for C7 on a monotone nonnegative table. -/
theorem c7_monotone_witness :
    calculate_volume_discount pdMono 1500 ≤ calculate_volume_discount pdMono 6000 :=
  c7_monotone pdMono 1500 6000 (by norm_num) (by decide) (by decide)

/-- Counterexample to C7 as stated: with the table
`[{100, 10%}, {200, 5%}]`, subtotal 150 selects 10% but the larger
subtotal 250 selects only 5%. -/
theorem c7_counterexample :
    (150 : ℚ) ≤ 250 ∧
    calculate_volume_discount pdNonMono 150 = 10 ∧
    calculate_volume_discount pdNonMono 250 = 5 ∧
    ¬ (calculate_volume_discount pdNonMono 150 ≤ calculate_volume_discount pdNonMono 250) := by
  decide

/-- Claim C5 (amended): for every request and catalog,
`vat = round_half_up(subtotal_after_discount * 0.20, 2dp)` and
`total = subtotal_after_discount + vat` hold exactly in exact decimal
arithmetic, and the VAT is always 2-decimal-place exact; the discounted
subtotal (hence the total) need not be, because the source does not
re-quantize after subtracting the discount. -/
theorem c5_vat_total (pd : PricingData) (req : QuoteRequest) :
    (generate pd req).vat = roundHalfUp2 ((generate pd req).subtotal * (20 / 100)) ∧
    (generate pd req).total = (generate pd req).subtotal + (generate pd req).vat ∧
    twoDP ((generate pd req).vat) :=
  ⟨rfl, rfl, twoDP_roundHalfUp2 _⟩

/-- Pre-discount subtotal of the `pdX` quote. -/
theorem pdX_pre : preDiscountSubtotal pdX reqX = 100001 / 100 := by
  have h1 : roundHalfUp2 ((100001 / 100 : ℚ) * 1) = 100001 / 100 := by
    have h := roundHalfUp2_eval (q := (100001 / 100 : ℚ) * 1) (n := 100001)
      (by norm_num) (by norm_num) (by norm_num)
    rw [h]; norm_num
  have h2 : roundHalfUp2 ((1 : ℚ) * (100001 / 100)) = 100001 / 100 := by
    have h := roundHalfUp2_eval (q := (1 : ℚ) * (100001 / 100)) (n := 100001)
      (by norm_num) (by norm_num) (by norm_num)
    rw [h]; norm_num
  show roundHalfUp2 ((1 : ℚ) * roundHalfUp2 ((100001 / 100 : ℚ) * 1)) + 0 + 0 = 100001 / 100
  rw [h1, h2]
  norm_num

/-- Selected discount percentage of the `pdX` quote. -/
theorem pdX_pct : calculate_volume_discount pdX (preDiscountSubtotal pdX reqX) = 5 := by
  rw [pdX_pre]
  show (if (1000 : ℚ) ≤ 100001 / 100 then (5 : ℚ) else 0) = 5
  rw [if_pos (by norm_num)]

/-- Discounted subtotal of the `pdX` quote: `950.0095`. -/
theorem pdX_sub : discountedSubtotal pdX reqX = 1900019 / 2000 := by
  unfold discountedSubtotal discountPct
  rw [pdX_pct, pdX_pre, if_pos (show (0 : ℚ) < 5 by norm_num)]
  norm_num

/-- VAT of the `pdX` quote: `190.00`. -/
theorem pdX_vat : roundHalfUp2 (discountedSubtotal pdX reqX * (20 / 100)) = 190 := by
  rw [pdX_sub]
  have h := roundHalfUp2_eval (q := (1900019 / 2000 : ℚ) * (20 / 100)) (n := 19000)
    (by norm_num) (by norm_num) (by norm_num)
  rw [h]; norm_num

/-- Counterexample to C5 as stated: on `pdX` the discounted subtotal is
`950.0095` and the total `1140.0095`, so neither is decimal-exact to 2
places (the claim asserts all three monetary values are). -/
theorem c5_counterexample :
    (generate pdX reqX).subtotal = 1900019 / 2000 ∧
    (generate pdX reqX).vat = 190 ∧
    (generate pdX reqX).total = 2280019 / 2000 ∧
    ¬ twoDP ((generate pdX reqX).subtotal) ∧
    ¬ twoDP ((generate pdX reqX).total) := by
  have hsub : (generate pdX reqX).subtotal = 1900019 / 2000 := pdX_sub
  have hvat : (generate pdX reqX).vat = 190 := pdX_vat
  have htot : (generate pdX reqX).total = 2280019 / 2000 := by
    show discountedSubtotal pdX reqX +
      roundHalfUp2 (discountedSubtotal pdX reqX * (20 / 100)) = 2280019 / 2000
    rw [pdX_vat, pdX_sub]
    norm_num
  refine ⟨hsub, hvat, htot, ?_, ?_⟩
  · rw [hsub]
    rintro ⟨n, hn⟩
    rw [div_eq_div_iff (by norm_num) (by norm_num)] at hn
    have hz : (1900019 : ℤ) * 100 = n * 2000 := by exact_mod_cast hn
    omega
  · rw [htot]
    rintro ⟨n, hn⟩
    rw [div_eq_div_iff (by norm_num) (by norm_num)] at hn
    have hz : (2280019 : ℤ) * 100 = n * 2000 := by exact_mod_cast hn
    omega

/-- Claim C10: when a strictly positive volume discount applies, the
`subtotal` field of the returned quote is the post-discount amount (the sum
of section subtotals minus the discount), and VAT and total are derived
from it. -/
theorem c10_subtotal_post_discount (pd : PricingData) (req : QuoteRequest)
    (h : 0 < calculate_volume_discount pd (preDiscountSubtotal pd req)) :
    (generate pd req).subtotal =
      preDiscountSubtotal pd req - preDiscountSubtotal pd req *
        (calculate_volume_discount pd (preDiscountSubtotal pd req) / 100) ∧
    (generate pd req).vat = roundHalfUp2 ((generate pd req).subtotal * (20 / 100)) ∧
    (generate pd req).total = (generate pd req).subtotal + (generate pd req).vat := by
  refine ⟨?_, rfl, rfl⟩
  show discountedSubtotal pd req = _
  unfold discountedSubtotal discountPct
  rw [if_pos h]

/-- Witness for C10 on the `pdX` quote, whose discount is 5%. -/
theorem c10_subtotal_post_discount_witness :
    (generate pdX reqX).subtotal =
      preDiscountSubtotal pdX reqX - preDiscountSubtotal pdX reqX *
        (calculate_volume_discount pdX (preDiscountSubtotal pdX reqX) / 100) :=
  (c10_subtotal_post_discount pdX reqX (by rw [pdX_pct]; norm_num)).1

/-- `l.isEmpty = true` exactly for the empty list. -/
theorem isEmpty_true_iff {α : Type} {l : List α} : l.isEmpty = true ↔ l = [] := by
  cases l <;> simp

/-- The base-items section never carries the upgrades section's name: its
name always ends in ` - Core Works`. -/
theorem coreWorksName_ne (pt : String) :
    coreWorksName pt ≠ "Premium Upgrades & Enhancements" := by
  intro h
  have hd : (coreWorksName pt).data.reverse.take 2 = ['s', 'k'] := by
    show ((pyTitle (pyReplaceChar pt '_' ' ')).data ++
      " - Core Works".data).reverse.take 2 = ['s', 'k']
    rw [List.reverse_append]
    have hrev : " - Core Works".data.reverse =
        ['s', 'k', 'r', 'o', 'W', ' ', 'e', 'r', 'o', 'C', ' ', '-', ' '] := by decide
    rw [hrev]
    rfl
  rw [h] at hd
  have hT : ("Premium Upgrades & Enhancements" : String).data.reverse.take 2 =
      ['s', 't'] := by decide
  rw [hT] at hd
  exact absurd hd (by decide)

/-- Claim C8 (amended): the premium-upgrades section is included iff the
tier is `premium` or `luxury` AND the tier-filtered upgrades list is
non-empty — the request's `include_optional_items` flag is never consulted
by the source.  When present, the section carries exactly the
`premium_upgrades` catalog items whose tier list (default
`{premium, luxury}`) contains the tier. -/
theorem c8_upgrade_section (pd : PricingData) (req : QuoteRequest) :
    ((∃ sec ∈ (generate pd req).sections,
        sec.name = "Premium Upgrades & Enhancements") ↔
      ((req.tier = "premium" ∨ req.tier = "luxury") ∧
        get_premium_upgrades pd req.project_type req.tier (locFactor pd req) ≠ [])) ∧
    (∀ sec ∈ (generate pd req).sections, sec.name = "Premium Upgrades & Enhancements" →
      sec.items = get_premium_upgrades pd req.project_type req.tier (locFactor pd req)) ∧
    (∀ tier, tier ≠ "essential" →
      get_premium_upgrades pd req.project_type tier (locFactor pd req) =
        (((pd.categories.lookup req.project_type).getD {}).premium_upgrades.filter
            (fun item => (item.tiers.getD ["premium", "luxury"]).contains tier)).map
          (fun item =>
            { description := item.name, quantity := 1, unit := item.unit,
              unit_price := roundHalfUp2
                ((item.price_from.getD (item.price.getD 0)) * locFactor pd req) })) := by
  have hbase : ∀ sec ∈ baseSectionList pd req, sec.name = coreWorksName req.project_type := by
    intro sec hsec
    unfold baseSectionList at hsec
    split_ifs at hsec
    · cases hsec
    · obtain rfl := List.mem_singleton.mp hsec
      rfl
  refine ⟨⟨?_, ?_⟩, ?_, ?_⟩
  · rintro ⟨sec, hmem, hname⟩
    rcases List.mem_append.mp hmem with hm | hm
    · exact absurd ((hbase sec hm).symm.trans hname) (coreWorksName_ne req.project_type)
    · unfold upgradeSectionList at hm
      split_ifs at hm with hc hue
      · cases hm
      · exact ⟨hc, fun hnil => hue (isEmpty_true_iff.mpr hnil)⟩
      · cases hm
  · rintro ⟨hc, hne⟩
    refine ⟨⟨"Premium Upgrades & Enhancements",
      get_premium_upgrades pd req.project_type req.tier (locFactor pd req)⟩, ?_, rfl⟩
    show _ ∈ baseSectionList pd req ++ upgradeSectionList pd req
    apply List.mem_append_right
    unfold upgradeSectionList
    rw [if_pos hc, if_neg (fun hx => hne (isEmpty_true_iff.mp hx))]
    exact List.mem_singleton.mpr rfl
  · intro sec hmem hname
    rcases List.mem_append.mp hmem with hm | hm
    · exact absurd ((hbase sec hm).symm.trans hname) (coreWorksName_ne req.project_type)
    · unfold upgradeSectionList at hm
      split_ifs at hm with hc hue
      · cases hm
      · obtain rfl := List.mem_singleton.mp hm
        rfl
      · cases hm
  · intro tier ht
    unfold get_premium_upgrades
    rw [if_neg ht]

/-- Counterexample to C8 as stated: `reqU` has `include_optional_items =
false`, yet the source still emits the premium-upgrades section, because
`QuoteService.generate` never reads that flag. -/
theorem c8_counterexample :
    reqU.include_optional_items = false ∧
    (generate pdU reqU).sections =
      [⟨"Premium Upgrades & Enhancements", [⟨"Gold taps", 1, "item", 100⟩]⟩] := by
  refine ⟨rfl, ?_⟩
  have h1 : roundHalfUp2 ((100 : ℚ) * 1) = 100 := by
    have h := roundHalfUp2_eval (q := (100 : ℚ) * 1) (n := 10000)
      (by norm_num) (by norm_num) (by norm_num)
    rw [h]; norm_num
  show [(⟨"Premium Upgrades & Enhancements",
    [⟨"Gold taps", 1, "item", roundHalfUp2 ((100 : ℚ) * 1)⟩]⟩ : QuoteSection)] = _
  rw [h1]

/-- Witness for C8: for `pdU`/`reqU` the upgrade section is present. -/
theorem c8_upgrade_section_witness :
    ∃ sec ∈ (generate pdU reqU).sections,
      sec.name = "Premium Upgrades & Enhancements" :=
  (c8_upgrade_section pdU reqU).1.mpr ⟨Or.inl rfl, fun h => List.cons_ne_nil _ _ h⟩

/-- Claim C9: an unknown `project_type` does not raise: the base-items
selection is empty and the quote is zero-cost (no sections, subtotal 0,
vat 0, total 0).  The embedded `generate` is total by construction — every
catalog access in the source uses defaulted `dict.get` lookups. -/
theorem c9_unknown_project (pd : PricingData) (req : QuoteRequest) (tier : String) (f : ℚ)
    (h : pd.categories.lookup req.project_type = none) :
    get_base_items pd req.project_type tier f = [] ∧
    (generate pd req).sections = [] ∧
    (generate pd req).subtotal = 0 ∧
    (generate pd req).vat = 0 ∧
    (generate pd req).total = 0 := by
  have hb : ∀ t g, get_base_items pd req.project_type t g = [] := by
    intro t g
    unfold get_base_items
    rw [h]
    rfl
  have hu : ∀ t g, get_premium_upgrades pd req.project_type t g = [] := by
    intro t g
    unfold get_premium_upgrades
    split_ifs with ht
    · rfl
    · rw [h]
      rfl
  have hsec : buildSections pd req = [] := by
    unfold buildSections baseSectionList upgradeSectionList
    rw [hb, hu]
    simp
  have hpre : preDiscountSubtotal pd req = 0 := by
    unfold preDiscountSubtotal
    rw [hsec]
    rfl
  have hsub : discountedSubtotal pd req = 0 := by
    unfold discountedSubtotal
    rw [hpre]
    split_ifs
    · ring
    · rfl
  have hvat : roundHalfUp2 (discountedSubtotal pd req * (20 / 100)) = 0 := by
    rw [hsub]
    have hv := roundHalfUp2_eval (q := (0 : ℚ) * (20 / 100)) (n := 0)
      (by norm_num) (by norm_num) (by norm_num)
    rw [hv]; norm_num
  refine ⟨hb tier f, hsec, hsub, hvat, ?_⟩
  show discountedSubtotal pd req + roundHalfUp2 (discountedSubtotal pd req * (20 / 100)) = 0
  rw [hvat, hsub]
  norm_num

/-- Witness for C9: pricing an unknown project type yields a zero total. -/
theorem c9_unknown_project_witness :
    pdEmpty.categories.lookup reqBogus.project_type = none ∧
    (generate pdEmpty reqBogus).total = 0 :=
  ⟨rfl, (c9_unknown_project pdEmpty reqBogus "premium" 1 rfl).2.2.2.2⟩

end QuoteBuilder
